import Mathlib

/-!
Shallow embedding of the recommendation-generation pipeline of the
fitness-ai-agent service (files `app/models.py`, `app/utils/llm_util.py`,
`app/main.py`).

Modelling conventions:
* Wall-clock timestamps (`datetime`) are integers (microseconds); the
  `timedelta(days=1)` offset is the constant `oneDay`.
* `datetime.now(timezone.utc)` is an effect.  The recommendation list
  comprehension in `generate_next_day_plan` evaluates it once per produced
  element, so the successive readings are modelled as a function
  `clock : Nat -> Int` giving the value returned by the i-th call made while
  building the list.  The single reading taken when the `DailyLog` is
  constructed in `submit_daily_log` is a separate parameter `logNow`.
* Python `float` arithmetic on the trend averages is modelled over `Rat`
  (the operands are integers; binary rounding of IEEE floats is below the
  granularity of this embedding, and so is the sign of a negative zero).
* The OpenAI chat-completion call is an opaque external capability,
  modelled as `llm : String -> Except String String` (prompt to either the
  reply text or the message of the raised exception).
* The Mongo store is a record of the two collections the pipeline touches;
  the raw user document handed to `generate_next_day_plan` keeps the
  rendered string form of the profile fields it only ever interpolates
  (`str()` of the stored age/weight/height values).
-/

/-- One element of `user["daily_logs"]` and the pydantic `DailyLog` model of
`app/models.py`: calories, activity_level (both `int`), and the `date`
timestamp. -/
structure DailyLog where
  calories : Int
  activity_level : Int
  date : Int
  deriving DecidableEq

/-- The raw Mongo user document handed to `generate_next_day_plan`
(`app/main.py` fetches it with `find_one`).  `oid` is `str(user["_id"])`;
the profile fields appear only interpolated into the prompt, so they are
kept in their rendered string form. -/
structure UserDoc where
  oid : String
  ageStr : String
  weightStr : String
  heightStr : String
  geography : String
  daily_logs : List DailyLog
  deriving DecidableEq

/-- The pydantic `Recommendation` model of `app/models.py`.  Its fields are
exactly `id` (alias `_id`; a fresh `PyObjectId` drawn by the field's
default factory at construction, never read by the pipeline), `user_id`,
`task` and `due_date` — in particular the model declares no done flag.
The embedding carries the three fields the pipeline observes; the `id`
surfaces only in the dumped documents, as the opaque token
`BsonValue.objectId` (see `rec_model_dump`). -/
structure Recommendation where
  user_id : String
  task : String
  due_date : Int
  deriving DecidableEq

/-- A BSON value as it appears in the documents the pipeline writes.
`objectId` stands for a freshly drawn `PyObjectId`: the pipeline never
reads such a value, so the embedding does not track which one it is. -/
inductive BsonValue where
  | str (s : String)
  | time (t : Int)
  | bool (b : Bool)
  | objectId
  deriving DecidableEq

/-- The dump `rec.model_dump(by_alias=True, exclude={"_id"})` built in
`app/main.py` before `insert_many`.  Pydantic's `exclude` matches field
NAMES, and the model's field is named `id` (its alias is `_id`), so
`exclude={"_id"}` excludes nothing: with `by_alias=True` the dump keeps
all four fields under their aliases, in model field order, `_id` first.
The `_id` value is the fresh `PyObjectId` the constructor drew; it is
never read again, so it is modelled as the token `BsonValue.objectId`. -/
def rec_model_dump (r : Recommendation) : List (String × BsonValue) :=
  [("_id", BsonValue.objectId),
   ("user_id", BsonValue.str r.user_id),
   ("task", BsonValue.str r.task),
   ("due_date", BsonValue.time r.due_date)]

/-- Python's `text.split(sep)` for a one-character separator, on the
character list of the text; `acc` is the current segment, reversed. -/
def pySplitAux (sep : Char) : List Char → List Char → List (List Char)
  | [], acc => [acc.reverse]
  | c :: rest, acc =>
    if c = sep then acc.reverse :: pySplitAux sep rest []
    else pySplitAux sep rest (c :: acc)

/-- Python's `text.split(sep)` for a one-character separator: splits at every
occurrence, keeping empty segments, and yields `[text]` when the separator
does not occur (in particular `[""]` on the empty string). -/
def pySplit (sep : Char) (s : String) : List String :=
  (pySplitAux sep s.data []).map String.mk

/-- Microseconds in `timedelta(days=1)`: the exact 24-hour offset added to
`datetime.now(timezone.utc)` for every `due_date`. -/
def oneDay : Int := 86400000000

/-- The list comprehension of `generate_next_day_plan`
(`app/utils/llm_util.py` lines 336-340), indexed by the call counter of
`datetime.now`: the element built from the i-th segment reads the clock for
the i-th time and adds one day. -/
def mkRecsAux (clock : Nat → Int) (oid : String) : Nat → List String → List Recommendation
  | _, [] => []
  | i, msg :: rest =>
    ⟨oid, msg, clock i + oneDay⟩ :: mkRecsAux clock oid (i + 1) rest

/-- The Recommendation Parser: split the raw reply on the pipe character and
materialize each segment, with `user_id = str(user["_id"])` and
`due_date = datetime.now(timezone.utc) + timedelta(days=1)` evaluated at
each element's construction. -/
def mkRecommendations (clock : Nat → Int) (oid : String) (content : String) :
    List Recommendation :=
  mkRecsAux clock oid 0 (pySplit '|' content)

/-- The recent-log window of `generate_next_day_plan` line 290:
`sorted(user.get('daily_logs', [])[-7:], key=lambda x: x["date"])` — the
last 7 entries in storage order, then a stable ascending sort by date. -/
def recent_logs (logs : List DailyLog) : List DailyLog :=
  (logs.drop (logs.length - 7)).mergeSort (fun a b => a.date ≤ b.date)

/-- Average calories of the recent window (line 291):
`sum(...) / len(...) if recent_logs else 0`. -/
def avg_calories (logs : List DailyLog) : ℚ :=
  let r := recent_logs logs
  if r = [] then 0 else ((r.map (fun l => l.calories)).sum : ℚ) / (r.length : ℚ)

/-- Average activity level of the recent window (line 292). -/
def avg_activity (logs : List DailyLog) : ℚ :=
  let r := recent_logs logs
  if r = [] then 0 else ((r.map (fun l => l.activity_level)).sum : ℚ) / (r.length : ℚ)

/-- Rounding to the nearest integer with ties to even, as Python's fixed-point
format specifier does. -/
def roundHalfEven (q : ℚ) : Int :=
  if q - ⌊q⌋ = 1 / 2 then (if ⌊q⌋ % 2 = 0 then ⌊q⌋ else ⌊q⌋ + 1) else round q

/-- Python's `f"{x:.0f}"` over the rational value: the nearest whole unit
(ties to even), with the sign kept when a negative value rounds to zero. -/
def fmtF0 (q : ℚ) : String :=
  if q < 0 ∧ roundHalfEven q = 0 then "-0" else toString (roundHalfEven q)

/-- Python's `f"{x:.1f}"` over the rational value: one decimal place, nearest
(ties to even), with the sign kept when a negative value rounds to zero. -/
def fmtF1 (q : ℚ) : String :=
  let n := roundHalfEven (10 * q)
  (if n < 0 ∨ (q < 0 ∧ n = 0) then "-" else "") ++
    toString (n.natAbs / 10) ++ "." ++ toString (n.natAbs % 10)

/-- The prompt text of `generate_next_day_plan` up to and including the
`7-Day Averages:` header, with the profile and today's-activity fields
interpolated. -/
def promptProfile (ageS weightS heightS geo : String) (cal act : Int) : String :=
  "Based on today's activity log and user profile, create specific, actionable tasks for tomorrow:\n\nUser Profile:\n- Age: "
    ++ ageS ++ "\n- Weight: " ++ weightS ++ "\n- Height: " ++ heightS
    ++ "\n- Location: " ++ geo ++ "\n\nToday's Activity:\n- Calories: "
    ++ toString cal ++ "\n- Activity Level: " ++ toString act
    ++ "\n\n7-Day Averages:\n"

/-- The two average lines of the prompt, with the `.0f` and `.1f` renderings
of the trend pair. -/
def promptAverages (avgCal avgAct : ℚ) : String :=
  "- Average Calories: " ++ fmtF0 avgCal
    ++ "\n- Average Activity Level: " ++ fmtF1 avgAct

/-- The literal requirements block of the prompt, between the averages and
the output-format contract. -/
def promptRequirements : String :=
  "\n\n\nRequirements:\n1. Generate 3-4 specific, actionable tasks\n2. Include at least one exercise-related task\n3. Include at least one nutrition-related task\n4. Tasks should be achievable within 24 hours\n5. Consider user's activity level trend when suggesting intensity\n\n"

/-- The literal output-format instruction block that closes the prompt: pipe
separated tasks and nothing else.  The Recommendation Parser's split on the
pipe character depends on it. -/
def instructionBlock : String :=
  "Output Format:\nProvide ONLY tasks separated by pipe symbols (|). Example:\nComplete 30 minutes of jogging | Drink 8 glasses of water | Do 3 sets of 15 push-ups | Prepare healthy meal prep for tomorrow\n\nDo not include any other text or explanations in the output."

/-- The Prompt Composer: the f-string of `generate_next_day_plan` lines
295-323, as a function of the interpolated values. -/
def promptCore (ageS weightS heightS geo : String) (cal act : Int)
    (avgCal avgAct : ℚ) : String :=
  promptProfile ageS weightS heightS geo cal act
    ++ promptAverages avgCal avgAct ++ (promptRequirements ++ instructionBlock)

/-- The full prompt for a user document and today's log: the averages are
computed from the user's stored logs as in lines 290-292. -/
def nextDayPrompt (user : UserDoc) (d : DailyLog) : String :=
  promptCore user.ageStr user.weightStr user.heightStr user.geography
    d.calories d.activity_level
    (avg_calories user.daily_logs) (avg_activity user.daily_logs)

/-- Construction of `FitnessLLMAgent` (`app/utils/llm_util.py` lines 13-23):
reads `OPENAI_API_KEY` from the environment and raises
`ValueError("OPENAI_API_KEY environment variable is not set")` when the
variable is absent or empty (`if not api_key`), before any request is made;
otherwise it only stores the client and parameters. -/
def agentInit (env : Option String) : Except String Unit :=
  match env with
  | none => Except.error "OPENAI_API_KEY environment variable is not set"
  | some k =>
      if k = "" then Except.error "OPENAI_API_KEY environment variable is not set"
      else Except.ok ()

/-- `generate_next_day_plan` (lines 278-362): build the prompt, invoke the
chat-completion client once, and on success split the reply into
Recommendations; any exception `e` from the call is re-raised as
`Exception("Error generating next day plan: " + str(e))`. -/
def generate_next_day_plan (llm : String → Except String String)
    (clock : Nat → Int) (user : UserDoc) (daily_log : DailyLog) :
    Except String (List Recommendation) :=
  match llm (nextDayPrompt user daily_log) with
  | Except.error e => Except.error ("Error generating next day plan: " ++ e)
  | Except.ok content => Except.ok (mkRecommendations clock user.oid content)

/-- The two collections of the Mongo store the pipeline touches: the user
documents and the inserted recommendation documents. -/
structure Store where
  users : List UserDoc
  recommendations : List (List (String × BsonValue))
  deriving DecidableEq

/-- The request body of `POST /api/log`: `log_data.get("userId")` (absent
key gives `None`), and the two integer fields. -/
structure LogRequest where
  userId : Option String
  calories : Int
  activityLevel : Int

/-- The HTTP-visible outcome of a request: an `HTTPException(status, detail)`
or an uncaught exception (FastAPI turns it into a 500). -/
inductive ApiError where
  | httpError (status : Nat) (detail : String)
  | uncaught (msg : String)
  deriving DecidableEq

/-- Everything observable about one `submit_daily_log` run: the response or
error, the store afterwards, and how many chat-completion requests were
issued. -/
structure SubmitOutcome where
  result : Except ApiError String
  store : Store
  llmCalls : Nat

/-- `ObjectId.is_valid` on the value read from the body: a 24-character hex
string (a missing or non-string value is invalid). -/
def isValidObjectId : Option String → Bool
  | none => false
  | some s =>
      s.length = 24 && s.data.all (fun c =>
        c.isDigit || ('a' ≤ c && c ≤ 'f') || ('A' ≤ c && c ≤ 'F'))

/-- The `submit_daily_log` handler of `app/main.py` (lines 33-68): validate
the id, fetch the user (404 when absent), build today's `DailyLog` with the
current time, construct the agent, run `generate_next_day_plan`, overwrite
every produced `user_id` with the request's id, `insert_many` the dumps,
then `$push` the log onto the user document.  Exactly one chat-completion
request is issued per run that reaches the generation stage. -/
def submit_daily_log (env : Option String) (llm : String → Except String String)
    (clock : Nat → Int) (logNow : Int) (store : Store) (req : LogRequest) :
    SubmitOutcome :=
  if isValidObjectId req.userId = false then
    ⟨Except.error (ApiError.httpError 400 "Invalid user ID"), store, 0⟩
  else
    match req.userId with
    | none => ⟨Except.error (ApiError.httpError 400 "Invalid user ID"), store, 0⟩
    | some uid =>
      match store.users.find? (fun u => u.oid = uid) with
      | none => ⟨Except.error (ApiError.httpError 404 "User not found"), store, 0⟩
      | some userDoc =>
        let daily_log : DailyLog := ⟨req.calories, req.activityLevel, logNow⟩
        match agentInit env with
        | Except.error m => ⟨Except.error (ApiError.uncaught m), store, 0⟩
        | Except.ok _ =>
          match generate_next_day_plan llm clock userDoc daily_log with
          | Except.error m => ⟨Except.error (ApiError.uncaught m), store, 1⟩
          | Except.ok recs0 =>
            let recs := recs0.map (fun r => { r with user_id := uid })
            let store1 : Store :=
              { store with
                recommendations := store.recommendations ++ recs.map rec_model_dump }
            let store2 : Store :=
              { store1 with
                users := store1.users.map (fun u =>
                  if u.oid = uid then { u with daily_logs := u.daily_logs ++ [daily_log] }
                  else u) }
            if store1.users.any (fun u => u.oid = uid) then
              ⟨Except.ok "Log submitted successfully", store2, 1⟩
            else
              ⟨Except.error (ApiError.httpError 404 "User not found"), store2, 1⟩

/-! ## Helper lemmas about the parser's split -/

theorem pySplitAux_length (sep : Char) (l acc : List Char) :
    (pySplitAux sep l acc).length = l.count sep + 1 := by
  induction l generalizing acc with
  | nil => simp [pySplitAux]
  | cons c rest ih =>
    by_cases h : c = sep
    · subst h
      simp [pySplitAux, ih, List.count_cons]
    · simp [pySplitAux, h, ih, List.count_cons]

theorem pySplit_length (sep : Char) (s : String) :
    (pySplit sep s).length = s.data.count sep + 1 := by
  simp [pySplit, pySplitAux_length]

theorem pySplitAux_count_zero (sep : Char) (l acc : List Char) (h : l.count sep = 0) :
    pySplitAux sep l acc = [acc.reverse ++ l] := by
  induction l generalizing acc with
  | nil => simp [pySplitAux]
  | cons c rest ih =>
    have hc : ¬ c = sep := by
      intro hc
      subst hc
      simp [List.count_cons] at h
    have hr : rest.count sep = 0 := by
      simp [List.count_cons, hc] at h
      omega
    rw [pySplitAux, if_neg hc, ih _ hr]
    simp

theorem pySplit_count_zero (sep : Char) (s : String) (h : s.data.count sep = 0) :
    pySplit sep s = [s] := by
  obtain ⟨d⟩ := s
  simp [pySplit, pySplitAux_count_zero sep d [] h]

theorem mkRecsAux_length (clock : Nat → Int) (oid : String) (i : Nat) (l : List String) :
    (mkRecsAux clock oid i l).length = l.length := by
  induction l generalizing i with
  | nil => rfl
  | cons a rest ih => simp [mkRecsAux, ih]

theorem mem_mkRecsAux (clock : Nat → Int) (oid : String) (i : Nat) (l : List String)
    (r : Recommendation) (h : r ∈ mkRecsAux clock oid i l) :
    r.user_id = oid ∧ ∃ j, j < l.length ∧ r.due_date = clock (i + j) + oneDay := by
  induction l generalizing i with
  | nil => simp [mkRecsAux] at h
  | cons a rest ih =>
    simp only [mkRecsAux, List.mem_cons] at h
    rcases h with h | h
    · subst h
      exact ⟨rfl, 0, by simp, by simp⟩
    · obtain ⟨h1, j, hj, h2⟩ := ih _ h
      refine ⟨h1, j + 1, by simpa using Nat.succ_lt_succ hj, ?_⟩
      rw [h2]
      have hix : i + 1 + j = i + (j + 1) := by omega
      rw [hix]

/-! ## Helper lemmas about the trend window -/

theorem recent_logs_perm (logs : List DailyLog) :
    (recent_logs logs).Perm (logs.drop (logs.length - 7)) :=
  List.mergeSort_perm _ _

theorem recent_logs_nil : recent_logs ([] : List DailyLog) = [] := by
  have h := recent_logs_perm ([] : List DailyLog)
  simpa using h.eq_nil

theorem drop_window_ne_nil (logs : List DailyLog) (h : logs ≠ []) :
    logs.drop (logs.length - 7) ≠ [] := by
  have hl : 0 < logs.length := List.length_pos.mpr h
  intro hc
  have hlen := congrArg List.length hc
  simp [List.length_drop] at hlen
  omega

theorem recent_logs_ne_nil (logs : List DailyLog) (h : logs ≠ []) :
    recent_logs logs ≠ [] := by
  intro hc
  have hp := recent_logs_perm logs
  rw [hc] at hp
  exact drop_window_ne_nil logs h hp.symm.eq_nil

theorem avg_window (f : DailyLog → Int) (logs : List DailyLog) (h : logs ≠ []) :
    (if recent_logs logs = [] then (0 : ℚ)
      else (((recent_logs logs).map f).sum : ℚ) / ((recent_logs logs).length : ℚ))
    = (((logs.drop (logs.length - 7)).map f).sum : ℚ) /
        (((logs.drop (logs.length - 7)).length : Nat) : ℚ) := by
  have hne := recent_logs_ne_nil logs h
  have hp := recent_logs_perm logs
  have hsum : ((recent_logs logs).map f).sum = ((logs.drop (logs.length - 7)).map f).sum :=
    (hp.map f).sum_eq
  have hlen : (recent_logs logs).length = (logs.drop (logs.length - 7)).length :=
    hp.length_eq
  rw [if_neg hne, hsum, hlen]

theorem avg_calories_eq_window (logs : List DailyLog) (h : logs ≠ []) :
    avg_calories logs = (((logs.drop (logs.length - 7)).map (fun l => l.calories)).sum : ℚ) /
      (((logs.drop (logs.length - 7)).length : Nat) : ℚ) := by
  have := avg_window (fun l => l.calories) logs h
  simpa [avg_calories] using this

theorem avg_activity_eq_window (logs : List DailyLog) (h : logs ≠ []) :
    avg_activity logs = (((logs.drop (logs.length - 7)).map (fun l => l.activity_level)).sum : ℚ) /
      (((logs.drop (logs.length - 7)).length : Nat) : ℚ) := by
  have := avg_window (fun l => l.activity_level) logs h
  simpa [avg_activity] using this

theorem avg_calories_nil : avg_calories [] = 0 := by
  simp [avg_calories, recent_logs_nil]

theorem avg_activity_nil : avg_activity [] = 0 := by
  simp [avg_activity, recent_logs_nil]

/-! ## Helper lemmas about the fixed-point rendering -/

theorem roundHalfEven_close (q : ℚ) : |q - (roundHalfEven q : ℚ)| ≤ 1 / 2 := by
  unfold roundHalfEven
  by_cases h : q - (⌊q⌋ : ℚ) = 1 / 2
  · rw [if_pos h]
    by_cases h2 : ⌊q⌋ % 2 = 0
    · rw [if_pos h2, h]
      rw [abs_of_nonneg (by norm_num : (0 : ℚ) ≤ 1 / 2)]
    · rw [if_neg h2]
      have hq : q - ((((⌊q⌋ : Int) + 1 : Int)) : ℚ) = (q - (⌊q⌋ : ℚ)) - 1 := by
        push_cast
        ring
      rw [hq, h]
      norm_num
      rw [abs_of_nonneg (by norm_num : (0 : ℚ) ≤ 1 / 2)]
  · rw [if_neg h]
    exact abs_sub_round q

theorem roundHalfEven_zero : roundHalfEven 0 = 0 := by
  unfold roundHalfEven
  norm_num

theorem fmtF0_zero : fmtF0 0 = "0" := by
  unfold fmtF0
  rw [roundHalfEven_zero]
  norm_num
  decide

theorem fmtF1_zero : fmtF1 0 = "0.0" := by
  unfold fmtF1
  rw [show (10 : ℚ) * 0 = 0 by ring, roundHalfEven_zero]
  norm_num
  decide

/-! ## Claim theorems -/

/-- C1 (counterexample): the claim as stated is false on the code.  The list
comprehension of `generate_next_day_plan` evaluates
`datetime.now(timezone.utc)` once per produced Recommendation, so for the
raw text "A|B|C" the three due dates need not be equal: with a clock that
advances by one microsecond between the readings, the first and the second
produced due_date differ. -/
theorem fitness_C1_counterexample :
    ((mkRecommendations (fun i => (i : Int)) "u" "A|B|C").map (fun r => r.due_date)).getD 0 0
      ≠ ((mkRecommendations (fun i => (i : Int)) "u" "A|B|C").map (fun r => r.due_date)).getD 1 0 := by
  decide

/-- C1 (amended): for the raw text "A|B|C" the parser produces exactly 3
Recommendations with tasks "A", "B", "C" in order and the same owning-user
identifier; the i-th due_date equals the i-th wall-clock reading plus
exactly 24 hours, and all three due dates coincide (at the common value
clock-reading + 24h) exactly when the clock does not advance between the
three constructions. -/
theorem fitness_C1_parser_three_tasks (clock : Nat → Int) (oid : String) :
    (mkRecommendations clock oid "A|B|C").map (fun r => r.task) = ["A", "B", "C"] ∧
    (mkRecommendations clock oid "A|B|C").map (fun r => r.user_id) = [oid, oid, oid] ∧
    (mkRecommendations clock oid "A|B|C").map (fun r => r.due_date)
      = [clock 0 + oneDay, clock 1 + oneDay, clock 2 + oneDay] ∧
    ((∀ i, clock i = clock 0) →
      (mkRecommendations clock oid "A|B|C").map (fun r => r.due_date)
        = List.replicate 3 (clock 0 + oneDay)) := by
  have hsplit : pySplit '|' "A|B|C" = ["A", "B", "C"] := by decide
  refine ⟨?_, ?_, ?_, ?_⟩
  · simp [mkRecommendations, hsplit, mkRecsAux]
  · simp [mkRecommendations, hsplit, mkRecsAux]
  · simp [mkRecommendations, hsplit, mkRecsAux]
  · intro hc
    simp [mkRecommendations, hsplit, mkRecsAux, hc 1, hc 2, List.replicate]

/-- C1 (witness): the amended theorem applied at a constant clock, where the
three due dates all equal the invocation time plus 24 hours. -/
theorem fitness_C1_witness :
    (mkRecommendations (fun _ => (1700000000000000 : Int)) "64a000000000000000000000" "A|B|C").map
        (fun r => r.due_date)
      = List.replicate 3 ((1700000000000000 : Int) + oneDay) :=
  (fitness_C1_parser_three_tasks (fun _ => 1700000000000000) "64a000000000000000000000").2.2.2
    (fun _ => rfl)

/-- C6: for raw text with no pipe character, the empty string included, the
parser produces exactly one Recommendation whose task is the full input
text — no empty-case filtering. -/
theorem fitness_C6_parser_no_pipe (clock : Nat → Int) (oid : String) (text : String)
    (h : text.data.count '|' = 0) :
    mkRecommendations clock oid text = [⟨oid, text, clock 0 + oneDay⟩] := by
  rw [mkRecommendations, pySplit_count_zero _ _ h]
  simp [mkRecsAux]

/-- C6 (witness): the theorem applied to the empty reply text: one
Recommendation with the empty task. -/
theorem fitness_C6_witness :
    mkRecommendations (fun _ => (5 : Int)) "u6" "" = [⟨"u6", "", (5 : Int) + oneDay⟩] :=
  fitness_C6_parser_no_pipe (fun _ => 5) "u6" "" (by decide)

/-- C9 (counterexample): the claim as stated is false on the code.  The
`Recommendation` model of `app/models.py` declares no `done` field, so a
pipeline-produced Recommendation's persisted document carries no "done"
key at all (let alone one defaulting to false). -/
theorem fitness_C9_counterexample :
    "done" ∉ (rec_model_dump ((mkRecommendations (fun _ => (0 : Int)) "u9" "Jog 20 min").headD
      ⟨"", "", 0⟩)).map Prod.fst := by
  decide

/-- C9 (amended): Recommendations created by the pipeline carry no done flag
at all, so no pipeline operation ever sets one: on every successful run the
documents `submit_daily_log` appends to the recommendations collection have
exactly the keys _id, user_id, task, due_date (pydantic's `exclude` matches
the field name `id`, not the alias `_id`, so the id is kept), and none
holds a "done" entry of any value. -/
theorem fitness_C9_no_done_flag (env : Option String)
    (llm : String → Except String String) (clock : Nat → Int) (logNow : Int)
    (store : Store) (req : LogRequest) (uid : String) (userDoc : UserDoc) (content : String)
    (h1 : req.userId = some uid)
    (h2 : isValidObjectId req.userId = true)
    (h3 : store.users.find? (fun u => u.oid = uid) = some userDoc)
    (h4 : agentInit env = Except.ok ())
    (h5 : llm (nextDayPrompt userDoc ⟨req.calories, req.activityLevel, logNow⟩)
      = Except.ok content) :
    ∃ newDocs,
      (submit_daily_log env llm clock logNow store req).store.recommendations
        = store.recommendations ++ newDocs ∧
      ∀ d ∈ newDocs,
        d.map Prod.fst = ["_id", "user_id", "task", "due_date"] ∧
        ∀ v, ("done", v) ∉ d := by
  have h2v : isValidObjectId (some uid) = true := by
    rw [← h1]
    exact h2
  have hp := List.find?_some h3
  have hany : store.users.any (fun u => u.oid = uid) = true :=
    List.any_eq_true.mpr ⟨userDoc, List.mem_of_find?_eq_some h3, hp⟩
  refine ⟨((mkRecommendations clock userDoc.oid content).map
      (fun r => { r with user_id := uid })).map rec_model_dump, ?_, ?_⟩
  · simp [submit_daily_log, h1, h2v, h3, h4, generate_next_day_plan, h5, hany]
  · intro d hd
    obtain ⟨r, -, rfl⟩ := List.mem_map.mp hd
    refine ⟨rfl, ?_⟩
    intro v hv
    simp [rec_model_dump] at hv

/-- C9 (witness): the amended theorem applied to a concrete run on a
two-task reply: the two inserted documents carry the four model keys and
no done entry. -/
theorem fitness_C9_witness :
    ∃ newDocs,
      (submit_daily_log (some "sk-k") (fun _ => Except.ok "Jog 20 min|Eat a salad")
          (fun _ => 0) 0
          ⟨[⟨"64a000000000000000000004", "30", "70.0", "175.0", "US", []⟩], []⟩
          ⟨some "64a000000000000000000004", 2000, 5⟩).store.recommendations
        = ([] : List (List (String × BsonValue))) ++ newDocs ∧
      ∀ d ∈ newDocs,
        d.map Prod.fst = ["_id", "user_id", "task", "due_date"] ∧
        ∀ v, ("done", v) ∉ d :=
  fitness_C9_no_done_flag (some "sk-k") (fun _ => Except.ok "Jog 20 min|Eat a salad")
    (fun _ => 0) 0 ⟨[⟨"64a000000000000000000004", "30", "70.0", "175.0", "US", []⟩], []⟩
    ⟨some "64a000000000000000000004", 2000, 5⟩ "64a000000000000000000004"
    ⟨"64a000000000000000000004", "30", "70.0", "175.0", "US", []⟩ "Jog 20 min|Eat a salad"
    rfl (by decide) (by decide) rfl rfl

/-- C10 (counterexample): the claim as stated is false on the code: the
due dates of the Recommendations of a single run need not share one value,
because `datetime.now` is re-read for each element of the comprehension.
With a clock advancing two microseconds per reading, the run on "X|Y"
produces two distinct due dates. -/
theorem fitness_C10_counterexample :
    ((mkRecommendations (fun i => (2 * i : Int)) "u2" "X|Y").map (fun r => r.due_date)).getD 0 0
      ≠ ((mkRecommendations (fun i => (2 * i : Int)) "u2" "X|Y").map (fun r => r.due_date)).getD 1 0 := by
  decide

/-- C10 (amended): for every input text the parser returns a non-empty
sequence whose length is the number of pipe characters plus one; all
produced Recommendations share the owning-user identifier; each due_date is
one of the run's clock readings plus exactly 24 hours, and they all share
the single value clock + 24h whenever the clock does not advance during
the run. -/
theorem fitness_C10_parser_invariants (clock : Nat → Int) (oid : String) (text : String) :
    (mkRecommendations clock oid text).length = text.data.count '|' + 1 ∧
    mkRecommendations clock oid text ≠ [] ∧
    (∀ r ∈ mkRecommendations clock oid text, r.user_id = oid) ∧
    (∀ r ∈ mkRecommendations clock oid text,
      ∃ j, j < text.data.count '|' + 1 ∧ r.due_date = clock j + oneDay) ∧
    ((∀ i, clock i = clock 0) →
      ∀ r ∈ mkRecommendations clock oid text, r.due_date = clock 0 + oneDay) := by
  have hlen : (mkRecommendations clock oid text).length = text.data.count '|' + 1 := by
    rw [mkRecommendations, mkRecsAux_length, pySplit_length]
  refine ⟨hlen, ?_, ?_, ?_, ?_⟩
  · intro hc
    rw [hc] at hlen
    simp at hlen
  · intro r hr
    exact (mem_mkRecsAux clock oid 0 _ r hr).1
  · intro r hr
    obtain ⟨-, j, hj, hdue⟩ := mem_mkRecsAux clock oid 0 _ r hr
    rw [pySplit_length] at hj
    exact ⟨j, hj, by simpa using hdue⟩
  · intro hc r hr
    obtain ⟨-, j, hj, hdue⟩ := mem_mkRecsAux clock oid 0 _ r hr
    rw [hdue, hc (0 + j)]

/-- C10 (witness): the amended theorem's shared-due-date conclusion at a
constant clock on a two-task reply. -/
theorem fitness_C10_witness :
    ((mkRecommendations (fun _ => (7 : Int)) "u10" "Jog 20 min|Eat a salad").headD
        ⟨"", "", 0⟩).due_date = (7 : Int) + oneDay :=
  (fitness_C10_parser_invariants (fun _ => 7) "u10" "Jog 20 min|Eat a salad").2.2.2.2
    (fun _ => rfl) _ (by decide)

/-- C3: for the empty log sequence the Trend Summarizer returns (0, 0), and
for every non-empty sequence of at most 7 entries the averages are the
exact arithmetic means of the calories and activity_level values over all
entries (the slice `[-7:]` keeps the whole list, and the sort permutes it
without changing sum or length). -/
theorem fitness_C3_trend_small_window :
    avg_calories [] = 0 ∧ avg_activity [] = 0 ∧
    ∀ logs : List DailyLog, logs ≠ [] → logs.length ≤ 7 →
      avg_calories logs = ((logs.map (fun l => l.calories)).sum : ℚ) / (logs.length : ℚ) ∧
      avg_activity logs = ((logs.map (fun l => l.activity_level)).sum : ℚ) / (logs.length : ℚ) := by
  refine ⟨avg_calories_nil, avg_activity_nil, ?_⟩
  intro logs hne hlen
  have hzero : logs.length - 7 = 0 := by omega
  have hdrop : logs.drop (logs.length - 7) = logs := by
    rw [hzero, List.drop_zero]
  constructor
  · rw [avg_calories_eq_window logs hne, hdrop]
  · rw [avg_activity_eq_window logs hne, hdrop]

/-- C3 (witness): the cases of the theorem at the empty history and at a
concrete 2-entry history. -/
theorem fitness_C3_witness :
    avg_calories [⟨2000, 5, 10⟩, ⟨1000, 3, 20⟩]
        = ((([⟨2000, 5, 10⟩, ⟨1000, 3, 20⟩] : List DailyLog).map (fun l => l.calories)).sum : ℚ)
          / (([⟨2000, 5, 10⟩, ⟨1000, 3, 20⟩] : List DailyLog).length : ℚ) :=
  (fitness_C3_trend_small_window.2.2 [⟨2000, 5, 10⟩, ⟨1000, 3, 20⟩] (by decide) (by decide)).1

/-- C2: for every stored log sequence of length greater than 7, the entries
contributing to the averages are exactly the last 7 in storage order (the
summarizer slices before it sorts, and the sort inside the window cannot
change the sums); when the sequence is stored sorted ascending by time,
every discarded entry's timestamp is at most every contributing entry's
timestamp, so the window is exactly the 7 most recent entries. -/
theorem fitness_C2_trend_last7 (logs : List DailyLog) (h : 7 < logs.length) :
    (recent_logs logs).Perm (logs.drop (logs.length - 7)) ∧
    (logs.drop (logs.length - 7)).length = 7 ∧
    avg_calories logs
      = (((logs.drop (logs.length - 7)).map (fun l => l.calories)).sum : ℚ) / 7 ∧
    avg_activity logs
      = (((logs.drop (logs.length - 7)).map (fun l => l.activity_level)).sum : ℚ) / 7 ∧
    (List.Sorted (fun a b => a.date ≤ b.date) logs →
      ∀ x ∈ logs.take (logs.length - 7), ∀ y ∈ logs.drop (logs.length - 7),
        x.date ≤ y.date) := by
  have hne : logs ≠ [] := by
    intro hc
    rw [hc] at h
    simp at h
  have hwlen : (logs.drop (logs.length - 7)).length = 7 := by
    rw [List.length_drop]
    omega
  refine ⟨recent_logs_perm logs, hwlen, ?_, ?_, ?_⟩
  · rw [avg_calories_eq_window logs hne, hwlen]
    norm_num
  · rw [avg_activity_eq_window logs hne, hwlen]
    norm_num
  · intro hs
    have h2 : List.Pairwise (fun a b => a.date ≤ b.date)
        (logs.take (logs.length - 7) ++ logs.drop (logs.length - 7)) := by
      rw [List.take_append_drop]
      exact hs
    exact (List.pairwise_append.mp h2).2.2

/-- C2 (witness): the theorem applied to a concrete 8-entry history: the
first entry is dropped, and with the history sorted ascending the window is
the 7 most recent entries. -/
theorem fitness_C2_witness :
    avg_calories [⟨800, 1, 1⟩, ⟨100, 2, 2⟩, ⟨200, 3, 3⟩, ⟨300, 4, 4⟩, ⟨400, 5, 5⟩,
        ⟨500, 6, 6⟩, ⟨600, 7, 7⟩, ⟨700, 8, 8⟩]
      = (((([⟨800, 1, 1⟩, ⟨100, 2, 2⟩, ⟨200, 3, 3⟩, ⟨300, 4, 4⟩, ⟨400, 5, 5⟩,
          ⟨500, 6, 6⟩, ⟨600, 7, 7⟩, ⟨700, 8, 8⟩] : List DailyLog).drop
            (([⟨800, 1, 1⟩, ⟨100, 2, 2⟩, ⟨200, 3, 3⟩, ⟨300, 4, 4⟩, ⟨400, 5, 5⟩,
          ⟨500, 6, 6⟩, ⟨600, 7, 7⟩, ⟨700, 8, 8⟩] : List DailyLog).length - 7)).map
            (fun l => l.calories)).sum : ℚ) / 7 :=
  (fitness_C2_trend_last7 [⟨800, 1, 1⟩, ⟨100, 2, 2⟩, ⟨200, 3, 3⟩, ⟨300, 4, 4⟩, ⟨400, 5, 5⟩,
      ⟨500, 6, 6⟩, ⟨600, 7, 7⟩, ⟨700, 8, 8⟩] (by decide)).2.2.1

/-- C7: the composed prompt always ends with the literal pipe-format
instruction block and carries the two average lines rendered by the `.0f`
and `.1f` formatters; those formatters round to the nearest whole unit and
to one decimal place (within half a unit of the last rendered digit), and
with no history the rendered lines are exactly "Average Calories: 0" and
"Average Activity Level: 0.0". -/
theorem fitness_C7_prompt_contract (ageS weightS heightS geo : String) (cal act : Int)
    (avgCal avgAct : ℚ) :
    (∃ a, promptCore ageS weightS heightS geo cal act avgCal avgAct = a ++ instructionBlock) ∧
    (∃ a b, promptCore ageS weightS heightS geo cal act avgCal avgAct
      = a ++ ("- Average Calories: " ++ fmtF0 avgCal
          ++ "\n- Average Activity Level: " ++ fmtF1 avgAct) ++ b) ∧
    |avgCal - (roundHalfEven avgCal : ℚ)| ≤ 1 / 2 ∧
    |10 * avgAct - (roundHalfEven (10 * avgAct) : ℚ)| ≤ 1 / 2 ∧
    fmtF0 0 = "0" ∧ fmtF1 0 = "0.0" ∧
    (∀ u : UserDoc, ∀ d : DailyLog, u.daily_logs = [] →
      ∃ a b, nextDayPrompt u d
        = a ++ "- Average Calories: 0\n- Average Activity Level: 0.0" ++ b) := by
  refine ⟨?_, ?_, roundHalfEven_close avgCal, roundHalfEven_close (10 * avgAct),
    fmtF0_zero, fmtF1_zero, ?_⟩
  · refine ⟨promptProfile ageS weightS heightS geo cal act
      ++ promptAverages avgCal avgAct ++ promptRequirements, ?_⟩
    simp [promptCore, String.append_assoc]
  · refine ⟨promptProfile ageS weightS heightS geo cal act,
      promptRequirements ++ instructionBlock, ?_⟩
    simp [promptCore, promptAverages, String.append_assoc]
  · intro u d hu
    refine ⟨promptProfile u.ageStr u.weightStr u.heightStr u.geography d.calories d.activity_level,
      promptRequirements ++ instructionBlock, ?_⟩
    rw [nextDayPrompt, hu, avg_calories_nil, avg_activity_nil]
    have havg : promptAverages 0 0 = "- Average Calories: 0\n- Average Activity Level: 0.0" := by
      rw [promptAverages, fmtF0_zero, fmtF1_zero]
      rfl
    rw [promptCore, havg]

/-- C7 (witness): the zero-history clause of the prompt theorem applied to a
concrete user with no stored logs. -/
theorem fitness_C7_witness :
    ∃ a b, nextDayPrompt ⟨"64a000000000000000000001", "30", "70.5", "175.0", "US", []⟩
        ⟨2000, 5, 0⟩
      = a ++ "- Average Calories: 0\n- Average Activity Level: 0.0" ++ b :=
  (fitness_C7_prompt_contract "30" "70.5" "175.0" "US" 2000 5 0 0).2.2.2.2.2.2
    ⟨"64a000000000000000000001", "30", "70.5", "175.0", "US", []⟩ ⟨2000, 5, 0⟩ rfl

/-- C4: when the chat-completion call fails, `submit_daily_log` surfaces the
wrapping error "Error generating next day plan: " plus the underlying
cause, exactly one generation request was issued, and the store is left
untouched: no recommendation insert and no daily-log append happens. -/
theorem fitness_C4_generation_failure (env : Option String)
    (llm : String → Except String String) (clock : Nat → Int) (logNow : Int)
    (store : Store) (req : LogRequest) (uid : String) (userDoc : UserDoc) (e : String)
    (h1 : req.userId = some uid)
    (h2 : isValidObjectId req.userId = true)
    (h3 : store.users.find? (fun u => u.oid = uid) = some userDoc)
    (h4 : agentInit env = Except.ok ())
    (h5 : llm (nextDayPrompt userDoc ⟨req.calories, req.activityLevel, logNow⟩)
      = Except.error e) :
    (submit_daily_log env llm clock logNow store req).result
      = Except.error (ApiError.uncaught ("Error generating next day plan: " ++ e)) ∧
    (submit_daily_log env llm clock logNow store req).store = store ∧
    (submit_daily_log env llm clock logNow store req).llmCalls = 1 := by
  have h2v : isValidObjectId (some uid) = true := by
    rw [← h1]
    exact h2
  simp [submit_daily_log, h1, h2v, h3, h4, generate_next_day_plan, h5]

/-- C4 (witness): the theorem applied to a concrete one-user store and a
client that raises; the run ends in the wrapped error and the store is
unchanged. -/
theorem fitness_C4_witness :
    (submit_daily_log (some "sk-k") (fun _ => Except.error "boom") (fun _ => 0) 0
        ⟨[⟨"64a000000000000000000002", "30", "70.0", "175.0", "US", []⟩], []⟩
        ⟨some "64a000000000000000000002", 2000, 5⟩).result
      = Except.error (ApiError.uncaught ("Error generating next day plan: " ++ "boom")) ∧
    (submit_daily_log (some "sk-k") (fun _ => Except.error "boom") (fun _ => 0) 0
        ⟨[⟨"64a000000000000000000002", "30", "70.0", "175.0", "US", []⟩], []⟩
        ⟨some "64a000000000000000000002", 2000, 5⟩).store
      = ⟨[⟨"64a000000000000000000002", "30", "70.0", "175.0", "US", []⟩], []⟩ ∧
    (submit_daily_log (some "sk-k") (fun _ => Except.error "boom") (fun _ => 0) 0
        ⟨[⟨"64a000000000000000000002", "30", "70.0", "175.0", "US", []⟩], []⟩
        ⟨some "64a000000000000000000002", 2000, 5⟩).llmCalls = 1 :=
  fitness_C4_generation_failure (some "sk-k") (fun _ => Except.error "boom") (fun _ => 0) 0
    ⟨[⟨"64a000000000000000000002", "30", "70.0", "175.0", "US", []⟩], []⟩
    ⟨some "64a000000000000000000002", 2000, 5⟩ "64a000000000000000000002"
    ⟨"64a000000000000000000002", "30", "70.0", "175.0", "US", []⟩ "boom"
    rfl (by decide) (by decide) rfl rfl

/-- C5: a syntactically valid user identifier that matches no stored user
makes `submit_daily_log` stop with HTTP 404 "User not found" before the
generation stage: no chat-completion request is issued and the store is
untouched. -/
theorem fitness_C5_user_not_found (env : Option String)
    (llm : String → Except String String) (clock : Nat → Int) (logNow : Int)
    (store : Store) (req : LogRequest) (uid : String)
    (h1 : req.userId = some uid)
    (h2 : isValidObjectId req.userId = true)
    (h3 : store.users.find? (fun u => u.oid = uid) = none) :
    (submit_daily_log env llm clock logNow store req).result
      = Except.error (ApiError.httpError 404 "User not found") ∧
    (submit_daily_log env llm clock logNow store req).llmCalls = 0 ∧
    (submit_daily_log env llm clock logNow store req).store = store := by
  have h2v : isValidObjectId (some uid) = true := by
    rw [← h1]
    exact h2
  simp [submit_daily_log, h1, h2v, h3]

/-- C5 (witness): the theorem applied to the empty store and a well-formed
identifier: 404, zero generation calls, store unchanged. -/
theorem fitness_C5_witness :
    (submit_daily_log (some "sk-k") (fun _ => Except.ok "T1|T2") (fun _ => 0) 0
        ⟨[], []⟩ ⟨some "aaaaaaaaaaaaaaaaaaaaaaaa", 2000, 5⟩).result
      = Except.error (ApiError.httpError 404 "User not found") ∧
    (submit_daily_log (some "sk-k") (fun _ => Except.ok "T1|T2") (fun _ => 0) 0
        ⟨[], []⟩ ⟨some "aaaaaaaaaaaaaaaaaaaaaaaa", 2000, 5⟩).llmCalls = 0 ∧
    (submit_daily_log (some "sk-k") (fun _ => Except.ok "T1|T2") (fun _ => 0) 0
        ⟨[], []⟩ ⟨some "aaaaaaaaaaaaaaaaaaaaaaaa", 2000, 5⟩).store = ⟨[], []⟩ :=
  fitness_C5_user_not_found (some "sk-k") (fun _ => Except.ok "T1|T2") (fun _ => 0) 0
    ⟨[], []⟩ ⟨some "aaaaaaaaaaaaaaaaaaaaaaaa", 2000, 5⟩ "aaaaaaaaaaaaaaaaaaaaaaaa"
    rfl (by decide) rfl

/-- C8: constructing the agent fails with the configuration error exactly
when the OPENAI_API_KEY credential is absent or empty; with a non-empty
credential the construction succeeds (it is a pure record construction and
issues no request); and whenever construction fails, the run makes zero
chat-completion requests — the failure precedes any generation attempt. -/
theorem fitness_C8_credential_config :
    (∀ env : Option String,
      agentInit env = Except.error "OPENAI_API_KEY environment variable is not set"
        ↔ (env = none ∨ env = some "")) ∧
    (∀ k : String, k ≠ "" → agentInit (some k) = Except.ok ()) ∧
    (∀ (env : Option String) (llm : String → Except String String) (clock : Nat → Int)
      (logNow : Int) (store : Store) (req : LogRequest),
      agentInit env ≠ Except.ok () →
      (submit_daily_log env llm clock logNow store req).llmCalls = 0) := by
  refine ⟨?_, ?_, ?_⟩
  · intro env
    constructor
    · intro h
      cases env with
      | none => exact Or.inl rfl
      | some k =>
        by_cases hk : k = ""
        · exact Or.inr (by rw [hk])
        · simp [agentInit, hk] at h
    · intro h
      rcases h with h | h <;> subst h <;> simp [agentInit]
  · intro k hk
    simp [agentInit, hk]
  · intro env llm clock logNow store req h
    unfold submit_daily_log
    split
    · rfl
    · split
      · rfl
      · split
        · rfl
        · split
          · rfl
          · next u heq =>
            cases u
            exact absurd heq h

/-- C8 (witness): the theorem applied at a concrete non-empty key, at the
absent key, and to a concrete run with the key missing (zero requests). -/
theorem fitness_C8_witness :
    agentInit (some "sk-test") = Except.ok () ∧
    (agentInit none = Except.error "OPENAI_API_KEY environment variable is not set"
      ↔ ((none : Option String) = none ∨ (none : Option String) = some "")) ∧
    (submit_daily_log none (fun _ => Except.ok "T1|T2") (fun _ => 0) 0
        ⟨[⟨"64a000000000000000000003", "30", "70.0", "175.0", "US", []⟩], []⟩
        ⟨some "64a000000000000000000003", 2000, 5⟩).llmCalls = 0 :=
  ⟨fitness_C8_credential_config.2.1 "sk-test" (by decide),
   fitness_C8_credential_config.1 none,
   fitness_C8_credential_config.2.2 none (fun _ => Except.ok "T1|T2") (fun _ => 0) 0
     ⟨[⟨"64a000000000000000000003", "30", "70.0", "175.0", "US", []⟩], []⟩
     ⟨some "64a000000000000000000003", 2000, 5⟩ (by simp [agentInit])⟩
